import Mathlib

/-!
Shallow embedding of the QuantaLearn progression model
(src/types.ts and the handlers of src/components/AuthPage.tsx).

Data model mirrors types.ts; the transition functions mirror the bodies of
handleCreateCourse, handleGenerateModule, handleQuizSubmit,
handleGenerateMockTest and handleMockTestSubmit. JavaScript arrays become
lists, optional fields become Option, Record number to string-array becomes a
function from Nat defaulting to the empty list (answers at a missing index are
coerced to the empty array by the source), and Array.prototype.sort on string
arrays becomes insertion sort by the linear order on String.
-/

namespace QuantaLearn

/-- QuizType from types.ts: MCQ, MSQ, FIB. -/
inductive QuizType
  | MCQ
  | MSQ
  | FIB
deriving DecidableEq, Repr

/-- Question from types.ts. -/
structure Question where
  question : String
  type : QuizType
  options : Option (List String)
  correctAnswers : List String
deriving DecidableEq, Repr

/-- Quiz from types.ts. -/
structure Quiz where
  title : String
  questions : List Question
deriving DecidableEq, Repr

/-- GenerationState from types.ts. -/
inductive GenerationState
  | LOCKED
  | GENERATING
  | READY
  | FAILED
deriving DecidableEq, Repr

/-- Module from types.ts, together with the quizAttempts counter the
handlers read and write (created as 0, incremented on failed quizzes). -/
structure Module where
  title : String
  objective : String
  content : Option String
  quiz : Option Quiz
  isCompleted : Bool
  generationState : GenerationState
  quizScore : Option Nat
  quizAttempts : Nat
deriving DecidableEq, Repr

/-- Badge from types.ts. -/
structure Badge where
  courseTitle : String
  score : Nat
  dateAwarded : String
deriving DecidableEq, Repr

/-- Course from types.ts. -/
structure Course where
  id : String
  title : String
  description : String
  modules : List Module
  badge : Option Badge
  unlockedModuleIndex : Nat
  isCompleted : Bool
  mockTest : Option Quiz
  mockTestState : Option GenerationState
  mockTestScore : Option Nat
deriving DecidableEq, Repr

/-- LearningPath from types.ts. -/
structure LearningPath where
  id : String
  title : String
  description : String
  courses : List Course
  unlockedCourseIndex : Nat
deriving DecidableEq, Repr

/-- JavaScript Array.prototype.sort on an array of strings: the list
rearranged into nondecreasing lexicographic order, compared on the
underlying character sequences. -/
def sortStr (l : List String) : List String :=
  l.insertionSort (fun a b => a.data ≤ b.data)

/-- The grading loop shared by handleQuizSubmit and handleMockTestSubmit
(AuthPage.tsx): for each question, the submitted selection and
correctAnswers are each sorted and compared for equality; a match adds one
to the score. Array.prototype.sort is in place, so each question leaves the
loop with its correctAnswers replaced by the sorted array; the returned
list of questions records that. -/
def gradeAux (answers : Nat → List String) : Nat → List Question → Nat × List Question
  | _, [] => (0, [])
  | i, q :: qs =>
    let userSorted := sortStr (answers i)
    let correctSorted := sortStr q.correctAnswers
    let rest := gradeAux answers (i + 1) qs
    ((if userSorted = correctSorted then 1 else 0) + rest.1,
      { q with correctAnswers := correctSorted } :: rest.2)

/-- Grading a whole quiz: the score together with the quiz value as it
stands after the loop (each correctAnswers list sorted in place). -/
def gradeQuiz (quiz : Quiz) (answers : Nat → List String) : Nat × Quiz :=
  let r := gradeAux answers 0 quiz.questions
  (r.1, { quiz with questions := r.2 })

/-- The score component of grading. -/
def gradeScore (quiz : Quiz) (answers : Nat → List String) : Nat :=
  (gradeQuiz quiz answers).1

/-- Math.round((score / total) * 100) on the exact rational value:
round half up, i.e. the floor of (200 * score + total) / (2 * total). -/
def roundPct (score total : Nat) : Nat :=
  (200 * score + total) / (2 * total)

/-- The percentage computed by both submit handlers. -/
def percentageOf (quiz : Quiz) (answers : Nat → List String) : Nat :=
  roundPct (gradeScore quiz answers) quiz.questions.length

/-- c.modules.map((m, i) => ...) : map with the JavaScript element index,
generalised over the start index for the recursion. -/
def mapWithIdxFrom (f : Nat → α → β) : Nat → List α → List β
  | _, [] => []
  | i, a :: as => f i a :: mapWithIdxFrom f (i + 1) as

/-- The per-course update performed by handleQuizSubmit's courseUpdater
after the id guard (AuthPage.tsx lines 1713-1736): on a pass the graded
module is marked completed with its score and a reset attempt counter and
the unlock frontier advances when the graded module sat at it; on a fail
only the attempt counter of the graded module grows; finally the course is
marked completed when every module is. -/
def applyGrading (idx pct : Nat) (c : Course) : Course :=
  let updatedModules :=
    if 80 ≤ pct then
      mapWithIdxFrom (fun i m => if i = idx then
        { m with isCompleted := true, quizScore := some pct, quizAttempts := 0 } else m) 0 c.modules
    else
      mapWithIdxFrom (fun i m => if i = idx then
        { m with quizAttempts := m.quizAttempts + 1 } else m) 0 c.modules
  let newUnlockedIndex :=
    if 80 ≤ pct ∧ c.unlockedModuleIndex = idx then c.unlockedModuleIndex + 1
    else c.unlockedModuleIndex
  let updatedCourse := { c with modules := updatedModules, unlockedModuleIndex := newUnlockedIndex }
  if updatedModules.all (fun m => m.isCompleted) then
    { updatedCourse with isCompleted := true }
  else updatedCourse

/-- handleQuizSubmit's courseUpdater, id guard included. -/
def courseUpdaterQuiz (activeId : String) (idx pct : Nat) (c : Course) : Course :=
  if c.id = activeId then applyGrading idx pct c else c

/-- Module outline as returned by the outline generation call. -/
structure ModuleOutline where
  title : String
  objective : String
deriving DecidableEq, Repr

/-- Course outline as returned by the outline generation call. -/
structure CourseOutline where
  title : String
  description : String
  modules : List ModuleOutline
deriving DecidableEq, Repr

/-- The course value built by handleCreateCourse from a generated outline
(AuthPage.tsx lines 1602-1608). -/
def createCourse (id : String) (o : CourseOutline) : Course :=
  { id := id
    title := o.title
    description := o.description
    isCompleted := false
    modules := o.modules.map (fun m =>
      { title := m.title, objective := m.objective, content := none, quiz := none,
        isCompleted := false, generationState := GenerationState.LOCKED,
        quizScore := none, quizAttempts := 0 })
    unlockedModuleIndex := 0
    badge := none
    mockTest := none
    mockTestState := none
    mockTestScore := none }

/-- The badge computed by handleMockTestSubmit (AuthPage.tsx lines
1819-1828): defined only on a pass with a score of at least 80. -/
def mkNewBadge (pct : Nat) (courseTitle date : String) : Option Badge :=
  if 70 ≤ pct then
    (if 80 ≤ pct then some { courseTitle := courseTitle, score := pct, dateAwarded := date }
     else none)
  else none

/-- handleMockTestSubmit's courseUpdater (AuthPage.tsx lines 1830-1837):
on a matching id the course always receives the computed percentage as its
mockTestScore, and additionally the new badge when one was computed (the
conditional object spread). -/
def mockCourseUpdate (aid courseTitle date : String) (pct : Nat) (c : Course) : Course :=
  if c.id = aid then
    match mkNewBadge pct courseTitle date with
    | some b => { c with mockTestScore := some pct, badge := some b }
    | none => { c with mockTestScore := some pct }
  else c

/-- The whole of handleMockTestSubmit as it acts on the list of courses:
grade the active course's mock test, then map the updater over the
collection; a missing mock test is a guarded no-op. -/
def handleMockTestSubmit (active : Course) (answers : Nat → List String)
    (date : String) (cs : List Course) : List Course :=
  match active.mockTest with
  | none => cs
  | some quiz =>
    cs.map (mockCourseUpdate active.id active.title date (percentageOf quiz answers))

/-- getBadgeStyling from MockTestResultsView (AuthPage.tsx lines
1410-1414): the cosmetic tier name and colour derived from a badge score. -/
def getBadgeStyling (score : Nat) : String × String :=
  if 90 ≤ score then ("Gold", "text-yellow-500")
  else if 85 ≤ score then ("Silver", "text-gray-500")
  else ("Bronze", "text-orange-600")

/-- The outcome of the generation gateway call made by
handleGenerateModule: either a content string and a quiz, or an error. -/
inductive GenResult
  | success (content : String) (quiz : Quiz)
  | failure
deriving DecidableEq, Repr

/-- updateModuleState inside handleGenerateModule (AuthPage.tsx lines
1667-1684): on a matching course id the module at moduleIndex is rebuilt
with the given generationState, content and quiz. The source spreads the
old module and then writes the content and quiz properties explicitly, so
the fields are always overwritten with the arguments, undefined included. -/
def updateModuleState (aid : String) (midx : Nat) (st : GenerationState)
    (content : Option String) (quiz : Option Quiz) (c : Course) : Course :=
  if c.id = aid then
    { c with modules := mapWithIdxFrom (fun i m =>
             if i = midx then { m with generationState := st, content := content, quiz := quiz }
             else m) 0 c.modules }
  else c

/-- handleGenerateModule on the course collection (AuthPage.tsx lines
1664-1695): the synchronous GENERATING write, then, according to the
gateway's result, the READY write carrying the payload or the FAILED
write. Returns the intermediate state (visible while the call is
outstanding) and the final state. -/
def handleGenerateModule (aid : String) (midx : Nat) (res : GenResult)
    (cs : List Course) : List Course × List Course :=
  let generating := cs.map (updateModuleState aid midx GenerationState.GENERATING none none)
  let final :=
    match res with
    | GenResult.success content quiz =>
      generating.map (updateModuleState aid midx GenerationState.READY (some content) (some quiz))
    | GenResult.failure =>
      generating.map (updateModuleState aid midx GenerationState.FAILED none none)
  (generating, final)

/-- The learning-path branch of handleQuizSubmit (AuthPage.tsx lines
1740-1756): on the active path, the same courseUpdater is mapped over the
path's courses, and the unlock frontier advances when the active course is
found, is completed after the update, and sat exactly at the frontier. -/
def pathUpdate (pid aid : String) (midx pct : Nat) (p : LearningPath) : LearningPath :=
  if p.id = pid then
    let updatedCourses := p.courses.map (courseUpdaterQuiz aid midx pct)
    let newUnlocked :=
      match updatedCourses.findIdx? (fun c => c.id == aid) with
      | none => p.unlockedCourseIndex
      | some i =>
        match updatedCourses[i]? with
        | some ci =>
          if ci.isCompleted = true ∧ i = p.unlockedCourseIndex then p.unlockedCourseIndex + 1
          else p.unlockedCourseIndex
        | none => p.unlockedCourseIndex
    { p with courses := updatedCourses, unlockedCourseIndex := newUnlocked }
  else p

/-! ## Helper lemmas -/

theorem string_data_inj {a b : String} (h : a.data = b.data) : a = b := by
  cases a
  cases b
  exact congrArg String.mk h

instance sortRelTotal : IsTotal String (fun a b : String => a.data ≤ b.data) :=
  ⟨fun a b => le_total a.data b.data⟩

instance sortRelTrans : IsTrans String (fun a b : String => a.data ≤ b.data) :=
  ⟨fun _ _ _ h h' => le_trans h h'⟩

instance sortRelAntisymm : IsAntisymm String (fun a b : String => a.data ≤ b.data) :=
  ⟨fun _ _ h h' => string_data_inj (le_antisymm h h')⟩

theorem sortStr_perm (l : List String) : List.Perm (sortStr l) l :=
  List.perm_insertionSort _ l

theorem sortStr_sorted (l : List String) :
    List.Sorted (fun a b : String => a.data ≤ b.data) (sortStr l) :=
  List.sorted_insertionSort _ l

theorem sortStr_congr {a b : List String} (h : List.Perm a b) : sortStr a = sortStr b :=
  List.eq_of_perm_of_sorted ((sortStr_perm a).trans (h.trans (sortStr_perm b).symm))
    (sortStr_sorted a) (sortStr_sorted b)

theorem sortStr_eq_iff {a b : List String} : sortStr a = sortStr b ↔ List.Perm a b := by
  constructor
  · intro h
    exact (sortStr_perm a).symm.trans (h ▸ sortStr_perm b)
  · exact sortStr_congr

/-- Exact rounding: roundPct is the round-half-up of the rational 100·s/t. -/
theorem roundPct_eq_round (s t : Nat) (ht : 0 < t) :
    (roundPct s t : ℤ) = round ((100 * s : ℚ) / (t : ℚ)) := by
  have ht' : (t : ℚ) ≠ 0 := Nat.cast_ne_zero.mpr ht.ne'
  rw [round_eq]
  have hx : (100 * s : ℚ) / (t : ℚ) + 1 / 2 =
      ((200 * s + t : ℕ) : ℚ) / ((2 * t : ℕ) : ℚ) := by
    push_cast
    field_simp
    ring
  rw [hx, Rat.floor_natCast_div_natCast]
  simp [roundPct]

theorem mapWithIdxFrom_getElem? (f : Nat → α → β) (n i : Nat) (l : List α) :
    (mapWithIdxFrom f n l)[i]? = (l[i]?).map (f (n + i)) := by
  induction l generalizing n i with
  | nil => simp [mapWithIdxFrom]
  | cons a as ih =>
    cases i with
    | zero => simp [mapWithIdxFrom]
    | succ j =>
      simp only [mapWithIdxFrom, List.getElem?_cons_succ]
      rw [ih (n + 1) j]
      ring_nf

theorem mapWithIdxFrom_length (f : Nat → α → β) (n : Nat) (l : List α) :
    (mapWithIdxFrom f n l).length = l.length := by
  induction l generalizing n with
  | nil => rfl
  | cons a as ih => simp [mapWithIdxFrom, ih]

/-- Pointwise monotone updates keep an all-completed module list
all-completed. -/
theorem mapWithIdxFrom_all_completed (g : Module → Module)
    (hg : ∀ m : Module, m.isCompleted = true → (g m).isCompleted = true) (idx : Nat) :
    ∀ (n : Nat) (l : List Module), l.all (fun m => m.isCompleted) = true →
      (mapWithIdxFrom (fun i m => if i = idx then g m else m) n l).all
        (fun m => m.isCompleted) = true := by
  intro n l
  induction l generalizing n with
  | nil => intro _; rfl
  | cons m ms ih =>
    intro h
    rw [List.all_cons, Bool.and_eq_true] at h
    rw [mapWithIdxFrom, List.all_cons, Bool.and_eq_true]
    refine ⟨?_, ih (n + 1) h.2⟩
    by_cases hn : n = idx
    · simp only [hn, if_pos rfl]
      exact hg m h.1
    · simp only [if_neg hn]
      exact h.1

/-- Reference count for the grading loop: the number of questions whose
submitted selection equals correctAnswers as a multiset. -/
def countPermMatches (answers : Nat → List String) : Nat → List Question → Nat
  | _, [] => 0
  | i, q :: qs =>
    (if (answers i : Multiset String) = (q.correctAnswers : Multiset String) then 1 else 0)
      + countPermMatches answers (i + 1) qs

theorem gradeAux_fst_eq_countPermMatches (answers : Nat → List String) (n : Nat)
    (qs : List Question) :
    (gradeAux answers n qs).1 = countPermMatches answers n qs := by
  induction qs generalizing n with
  | nil => rfl
  | cons q qs ih =>
    simp only [gradeAux, countPermMatches]
    rw [ih]
    congr 1
    by_cases h : List.Perm (answers n) q.correctAnswers
    · rw [if_pos (sortStr_eq_iff.mpr h), if_pos (Multiset.coe_eq_coe.mpr h)]
    · rw [if_neg (fun hc => h (sortStr_eq_iff.mp hc)),
        if_neg (fun hc => h (Multiset.coe_eq_coe.mp hc))]

theorem gradeAux_snd (answers : Nat → List String) (n : Nat) (qs : List Question) :
    (gradeAux answers n qs).2 =
      qs.map (fun q => { q with correctAnswers := sortStr q.correctAnswers }) := by
  induction qs generalizing n with
  | nil => rfl
  | cons q qs ih => simp only [gradeAux, List.map_cons, ih]

theorem gradeAux_fst_perm_congr (answers answers' : Nat → List String)
    (ha : ∀ i, List.Perm (answers i) (answers' i)) :
    ∀ (n : Nat) {qs qs' : List Question},
      List.Forall₂ (fun q q' => List.Perm q.correctAnswers q'.correctAnswers) qs qs' →
      (gradeAux answers n qs).1 = (gradeAux answers' n qs').1 := by
  intro n qs qs' h
  induction h generalizing n with
  | nil => rfl
  | cons hqq' hrest ih =>
    simp only [gradeAux]
    rw [ih]
    congr 1
    rw [sortStr_congr (ha n), sortStr_congr hqq']

theorem applyGrading_modules (idx pct : Nat) (c : Course) :
    (applyGrading idx pct c).modules =
      if 80 ≤ pct then
        mapWithIdxFrom (fun i m => if i = idx then
          { m with isCompleted := true, quizScore := some pct, quizAttempts := 0 } else m)
          0 c.modules
      else
        mapWithIdxFrom (fun i m => if i = idx then
          { m with quizAttempts := m.quizAttempts + 1 } else m) 0 c.modules := by
  simp only [applyGrading]
  split <;> split <;> rfl

theorem applyGrading_unlockedModuleIndex (idx pct : Nat) (c : Course) :
    (applyGrading idx pct c).unlockedModuleIndex =
      if 80 ≤ pct ∧ c.unlockedModuleIndex = idx then c.unlockedModuleIndex + 1
      else c.unlockedModuleIndex := by
  simp only [applyGrading]
  split <;> split <;> rfl

theorem applyGrading_isCompleted (idx pct : Nat) (c : Course) :
    (applyGrading idx pct c).isCompleted =
      ((applyGrading idx pct c).modules.all (fun m => m.isCompleted) || c.isCompleted) := by
  rw [applyGrading_modules]
  simp only [applyGrading]
  split <;> split <;> simp_all

theorem applyGrading_modules_all_mono (idx pct : Nat) (c : Course)
    (h : c.modules.all (fun m => m.isCompleted) = true) :
    (applyGrading idx pct c).modules.all (fun m => m.isCompleted) = true := by
  rw [applyGrading_modules]
  split
  · exact mapWithIdxFrom_all_completed
      (fun m => { m with isCompleted := true, quizScore := some pct, quizAttempts := 0 })
      (fun m _ => rfl) idx 0 c.modules h
  · exact mapWithIdxFrom_all_completed
      (fun m => { m with quizAttempts := m.quizAttempts + 1 })
      (fun m hm => hm) idx 0 c.modules h

theorem applyGrading_preserves_invariant (idx pct : Nat) (c : Course)
    (h : c.isCompleted = c.modules.all (fun m => m.isCompleted)) :
    (applyGrading idx pct c).isCompleted =
      (applyGrading idx pct c).modules.all (fun m => m.isCompleted) := by
  rw [applyGrading_isCompleted, h]
  cases hall : (applyGrading idx pct c).modules.all (fun m => m.isCompleted) with
  | true => rfl
  | false =>
    cases horig : c.modules.all (fun m => m.isCompleted) with
    | false => rfl
    | true => rw [applyGrading_modules_all_mono idx pct c horig] at hall; cases hall

theorem updateModuleState_id (aid : String) (midx : Nat) (st : GenerationState)
    (content : Option String) (quiz : Option Quiz) (c : Course) :
    (updateModuleState aid midx st content quiz c).id = c.id := by
  simp only [updateModuleState]
  split <;> rfl

theorem updateModuleState_module (aid : String) (midx : Nat) (st : GenerationState)
    (content : Option String) (quiz : Option Quiz) (c : Course) (m : Module)
    (hid : c.id = aid) (hm : c.modules[midx]? = some m) :
    (updateModuleState aid midx st content quiz c).modules[midx]? =
      some { m with generationState := st, content := content, quiz := quiz } := by
  simp only [updateModuleState, if_pos hid]
  rw [mapWithIdxFrom_getElem?, hm]
  simp

/-! ## Concrete sample values used by the witnesses -/

def wQuestion1 : Question :=
  { question := "Q1", type := QuizType.MCQ, options := some ["a", "b"], correctAnswers := ["a"] }

def wQuestion2 : Question :=
  { question := "Q2", type := QuizType.MSQ, options := some ["a", "b", "c"],
    correctAnswers := ["c", "b"] }

def wQuiz : Quiz := { title := "W", questions := [wQuestion1, wQuestion2] }

def wAnswers : Nat → List String := fun i => if i = 0 then ["a"] else ["b", "c"]

/-! ## Claims -/

/-- C1: for every quiz and every submitted answer mapping, the grading
loop shared by handleQuizSubmit and handleMockTestSubmit counts exactly
the questions whose submitted selection equals correctAnswers as an
unordered collection (sorted-list comparison, so no partial credit), and
the percentage is the half-up rounding of 100 * score / totalQuestions. -/
theorem grading_exact_match_and_percentage (quiz : Quiz) (answers : Nat → List String)
    (h : quiz.questions ≠ []) :
    gradeScore quiz answers = countPermMatches answers 0 quiz.questions ∧
    (percentageOf quiz answers : ℤ) =
      round ((100 * (gradeScore quiz answers) : ℚ) / (quiz.questions.length : ℚ)) := by
  refine ⟨gradeAux_fst_eq_countPermMatches answers 0 quiz.questions, ?_⟩
  have hlen : 0 < quiz.questions.length := List.length_pos.mpr h
  exact roundPct_eq_round _ _ hlen

theorem grading_exact_match_and_percentage_witness :
    wQuiz.questions ≠ [] ∧
    (gradeScore wQuiz wAnswers = countPermMatches wAnswers 0 wQuiz.questions ∧
     (percentageOf wQuiz wAnswers : ℤ) =
       round ((100 * (gradeScore wQuiz wAnswers) : ℚ) / (wQuiz.questions.length : ℚ))) :=
  ⟨by decide, grading_exact_match_and_percentage wQuiz wAnswers (by decide)⟩

/-- C9: replacing each question's correctAnswers by any permutation of it
and each submitted selection by any permutation of it leaves the grading
score, and hence the percentage, unchanged. -/
theorem grading_order_independent (t t' : String) (qs qs' : List Question)
    (answers answers' : Nat → List String)
    (hq : List.Forall₂ (fun q q' => List.Perm q.correctAnswers q'.correctAnswers) qs qs')
    (ha : ∀ i, List.Perm (answers i) (answers' i)) :
    gradeScore ⟨t, qs⟩ answers = gradeScore ⟨t', qs'⟩ answers' ∧
    percentageOf ⟨t, qs⟩ answers = percentageOf ⟨t', qs'⟩ answers' := by
  have hs : gradeScore ⟨t, qs⟩ answers = gradeScore ⟨t', qs'⟩ answers' :=
    gradeAux_fst_perm_congr answers answers' ha 0 hq
  refine ⟨hs, ?_⟩
  have hlen : qs.length = qs'.length := List.Forall₂.length_eq hq
  show roundPct (gradeScore ⟨t, qs⟩ answers) qs.length =
    roundPct (gradeScore ⟨t', qs'⟩ answers') qs'.length
  rw [hs, hlen]

def w9qs : List Question :=
  [{ question := "Q", type := QuizType.MSQ, options := some ["x", "y"],
     correctAnswers := ["y", "x"] }]

def w9qs' : List Question :=
  [{ question := "Q", type := QuizType.MSQ, options := some ["x", "y"],
     correctAnswers := ["x", "y"] }]

def w9a : Nat → List String := fun _ => ["y", "x"]

def w9a' : Nat → List String := fun _ => ["x", "y"]

theorem grading_order_independent_witness :
    (List.Forall₂ (fun q q' => List.Perm q.correctAnswers q'.correctAnswers) w9qs w9qs' ∧
     (∀ i, List.Perm (w9a i) (w9a' i))) ∧
    (gradeScore ⟨"W", w9qs⟩ w9a = gradeScore ⟨"W2", w9qs'⟩ w9a' ∧
     percentageOf ⟨"W", w9qs⟩ w9a = percentageOf ⟨"W2", w9qs'⟩ w9a') :=
  ⟨⟨List.Forall₂.cons (List.Perm.swap "x" "y" []) List.Forall₂.nil,
    fun _ => List.Perm.swap "x" "y" []⟩,
   grading_order_independent "W" "W2" w9qs w9qs' w9a w9a'
     (List.Forall₂.cons (List.Perm.swap "x" "y" []) List.Forall₂.nil)
     (fun _ => List.Perm.swap "x" "y" [])⟩

/-- C2: grading a module quiz updates exactly the graded module: on a pass
it is completed with the percentage stored and the attempt counter reset,
and the unlock frontier advances by one exactly when the graded module sat
at it; on a fail only its attempt counter grows and the frontier is
unchanged; other modules are untouched and the frontier never decreases. -/
theorem module_quiz_update_fields (aid : String) (c : Course) (idx pct : Nat) (m : Module)
    (hid : c.id = aid) (hm : c.modules[idx]? = some m) :
    (80 ≤ pct →
       (courseUpdaterQuiz aid idx pct c).modules[idx]? =
         some { m with isCompleted := true, quizScore := some pct, quizAttempts := 0 } ∧
       (courseUpdaterQuiz aid idx pct c).unlockedModuleIndex =
         (if c.unlockedModuleIndex = idx then c.unlockedModuleIndex + 1
          else c.unlockedModuleIndex)) ∧
    (pct < 80 →
       (courseUpdaterQuiz aid idx pct c).modules[idx]? =
         some { m with quizAttempts := m.quizAttempts + 1 } ∧
       (courseUpdaterQuiz aid idx pct c).unlockedModuleIndex = c.unlockedModuleIndex) ∧
    (∀ j, j ≠ idx → (courseUpdaterQuiz aid idx pct c).modules[j]? = c.modules[j]?) ∧
    c.unlockedModuleIndex ≤ (courseUpdaterQuiz aid idx pct c).unlockedModuleIndex := by
  have hcu : courseUpdaterQuiz aid idx pct c = applyGrading idx pct c := by
    simp [courseUpdaterQuiz, hid]
  rw [hcu]
  refine ⟨?_, ?_, ?_, ?_⟩
  · intro h80
    constructor
    · rw [applyGrading_modules, if_pos h80, mapWithIdxFrom_getElem?, hm]
      simp
    · rw [applyGrading_unlockedModuleIndex]
      simp [h80]
  · intro hlt
    have h80 : ¬ 80 ≤ pct := Nat.not_le.mpr hlt
    constructor
    · rw [applyGrading_modules, if_neg h80, mapWithIdxFrom_getElem?, hm]
      simp
    · rw [applyGrading_unlockedModuleIndex]
      simp [h80]
  · intro j hj
    rw [applyGrading_modules]
    split <;> (rw [mapWithIdxFrom_getElem?]; simp [hj])
  · rw [applyGrading_unlockedModuleIndex]
    split <;> omega

def w2Module : Module :=
  { title := "M", objective := "O", content := none, quiz := none, isCompleted := false,
    generationState := GenerationState.LOCKED, quizScore := none, quizAttempts := 0 }

def w2Course : Course :=
  { id := "c2", title := "C", description := "", modules := [w2Module], badge := none,
    unlockedModuleIndex := 0, isCompleted := false, mockTest := none, mockTestState := none,
    mockTestScore := none }

theorem module_quiz_update_fields_witness :
    (w2Course.id = "c2" ∧ w2Course.modules[0]? = some w2Module) ∧
    ((80 ≤ 100 →
       (courseUpdaterQuiz "c2" 0 100 w2Course).modules[0]? =
         some { w2Module with isCompleted := true, quizScore := some 100, quizAttempts := 0 } ∧
       (courseUpdaterQuiz "c2" 0 100 w2Course).unlockedModuleIndex =
         (if w2Course.unlockedModuleIndex = 0 then w2Course.unlockedModuleIndex + 1
          else w2Course.unlockedModuleIndex)) ∧
     ((100 : Nat) < 80 →
       (courseUpdaterQuiz "c2" 0 100 w2Course).modules[0]? =
         some { w2Module with quizAttempts := w2Module.quizAttempts + 1 } ∧
       (courseUpdaterQuiz "c2" 0 100 w2Course).unlockedModuleIndex =
         w2Course.unlockedModuleIndex) ∧
     (∀ j, j ≠ 0 → (courseUpdaterQuiz "c2" 0 100 w2Course).modules[j]? =
        w2Course.modules[j]?) ∧
     w2Course.unlockedModuleIndex ≤ (courseUpdaterQuiz "c2" 0 100 w2Course).unlockedModuleIndex) :=
  ⟨⟨rfl, rfl⟩, module_quiz_update_fields "c2" w2Course 0 100 w2Module rfl rfl⟩

/-- C7: starting from a freshly created course (whose generated outline has
at least one module) and applying any sequence of quiz gradings, the
course's isCompleted flag is true exactly when every module's isCompleted
flag is. -/
theorem course_completed_iff_modules (cid : String) (o : CourseOutline)
    (h : o.modules ≠ []) (gs : List (Nat × Nat)) :
    ((gs.foldl (fun c g => applyGrading g.1 g.2 c) (createCourse cid o)).isCompleted = true ↔
     (gs.foldl (fun c g => applyGrading g.1 g.2 c) (createCourse cid o)).modules.all
       (fun m => m.isCompleted) = true) := by
  have base : (createCourse cid o).isCompleted =
      (createCourse cid o).modules.all (fun m => m.isCompleted) := by
    cases hm : o.modules with
    | nil => exact absurd hm h
    | cons a as => simp [createCourse, hm]
  have main : ∀ (l : List (Nat × Nat)) (c : Course),
      c.isCompleted = c.modules.all (fun m => m.isCompleted) →
      (l.foldl (fun c g => applyGrading g.1 g.2 c) c).isCompleted =
        (l.foldl (fun c g => applyGrading g.1 g.2 c) c).modules.all (fun m => m.isCompleted) := by
    intro l
    induction l with
    | nil => intro c hc; exact hc
    | cons g l ih =>
      intro c hc
      exact ih _ (applyGrading_preserves_invariant g.1 g.2 c hc)
  rw [main gs _ base]

def w7Outline : CourseOutline :=
  { title := "C", description := "", modules := [{ title := "M", objective := "O" }] }

theorem course_completed_iff_modules_witness :
    w7Outline.modules ≠ [] ∧
    ((([((0 : Nat), (100 : Nat))]).foldl (fun c g => applyGrading g.1 g.2 c)
        (createCourse "c7" w7Outline)).isCompleted = true ↔
     (([((0 : Nat), (100 : Nat))]).foldl (fun c g => applyGrading g.1 g.2 c)
        (createCourse "c7" w7Outline)).modules.all (fun m => m.isCompleted) = true) :=
  ⟨by decide, course_completed_iff_modules "c7" w7Outline (by decide) [(0, 100)]⟩

/-- C3: mock-test grading stores the percentage on a pass, creates a
badge exactly when the percentage reaches 80 (none for 70 to 79), and the
tier derived from a badge score is Gold from 90, Silver from 85, and
Bronze otherwise. -/
theorem mock_test_pass_badge_and_tiers (c : Course) (aid title date : String) (pct : Nat)
    (hid : c.id = aid) :
    (70 ≤ pct → (mockCourseUpdate aid title date pct c).mockTestScore = some pct) ∧
    (80 ≤ pct → (mockCourseUpdate aid title date pct c).badge =
       some { courseTitle := title, score := pct, dateAwarded := date }) ∧
    (pct < 80 → (mockCourseUpdate aid title date pct c).badge = c.badge) ∧
    (∀ s, 90 ≤ s → (getBadgeStyling s).1 = "Gold") ∧
    (∀ s, 85 ≤ s → s < 90 → (getBadgeStyling s).1 = "Silver") ∧
    (∀ s, 80 ≤ s → s < 85 → (getBadgeStyling s).1 = "Bronze") := by
  refine ⟨?_, ?_, ?_, ?_, ?_, ?_⟩
  · intro h70
    by_cases h80 : 80 ≤ pct
    · simp [mockCourseUpdate, mkNewBadge, hid, h70, h80]
    · simp [mockCourseUpdate, mkNewBadge, hid, h70, h80]
  · intro h80
    have h70 : 70 ≤ pct := le_trans (by norm_num) h80
    simp [mockCourseUpdate, mkNewBadge, hid, h70, h80]
  · intro hlt
    have h80 : ¬ 80 ≤ pct := Nat.not_le.mpr hlt
    by_cases h70 : 70 ≤ pct
    · simp [mockCourseUpdate, mkNewBadge, hid, h70, h80]
    · simp [mockCourseUpdate, mkNewBadge, hid, h70, h80]
  · intro s hs
    simp [getBadgeStyling, hs]
  · intro s hs hs'
    simp [getBadgeStyling, hs, Nat.not_le.mpr hs']
  · intro s hs hs'
    have h90 : ¬ 90 ≤ s := by omega
    have h85 : ¬ 85 ≤ s := by omega
    simp [getBadgeStyling, h90, h85]

def w3Course : Course :=
  { id := "c3", title := "C3", description := "", modules := [], badge := none,
    unlockedModuleIndex := 0, isCompleted := true, mockTest := none, mockTestState := none,
    mockTestScore := none }

theorem mock_test_pass_badge_and_tiers_witness :
    w3Course.id = "c3" ∧
    ((70 ≤ 86 → (mockCourseUpdate "c3" "C3" "d" 86 w3Course).mockTestScore = some 86) ∧
     (80 ≤ 86 → (mockCourseUpdate "c3" "C3" "d" 86 w3Course).badge =
        some { courseTitle := "C3", score := 86, dateAwarded := "d" }) ∧
     ((86 : Nat) < 80 → (mockCourseUpdate "c3" "C3" "d" 86 w3Course).badge = w3Course.badge) ∧
     (∀ s, 90 ≤ s → (getBadgeStyling s).1 = "Gold") ∧
     (∀ s, 85 ≤ s → s < 90 → (getBadgeStyling s).1 = "Silver") ∧
     (∀ s, 80 ≤ s → s < 85 → (getBadgeStyling s).1 = "Bronze")) :=
  ⟨rfl, mock_test_pass_badge_and_tiers w3Course "c3" "C3" "d" 86 rfl⟩

def w4Question : Question :=
  { question := "Q", type := QuizType.MCQ, options := some ["a", "b"], correctAnswers := ["a"] }

def w4Quiz : Quiz :=
  { title := "MT", questions := [w4Question, w4Question, w4Question, w4Question, w4Question] }

def w4Answers : Nat → List String := fun i => if i < 4 then ["a"] else ["b"]

def w4Course : Course :=
  { id := "c4", title := "T4", description := "", modules := [],
    badge := some { courseTitle := "T4", score := 95, dateAwarded := "d0" },
    unlockedModuleIndex := 0, isCompleted := true, mockTest := some w4Quiz,
    mockTestState := some GenerationState.READY, mockTestScore := some 95 }

/-- C4 counterexample: a course holding a badge with score 95 is regraded
at 80 percent; the stored badge is replaced by one with the lower score
80, so a badge can be overwritten by a lower subsequent score. -/
theorem badge_overwritten_by_lower_score :
    w4Course.badge = some { courseTitle := "T4", score := 95, dateAwarded := "d0" } ∧
    percentageOf w4Quiz w4Answers = 80 ∧
    (handleMockTestSubmit w4Course w4Answers "d1" [w4Course]).head? =
      some { w4Course with mockTestScore := some 80
                           badge := some { courseTitle := "T4", score := 80, dateAwarded := "d1" } } ∧
    (80 : Nat) < 95 := by
  decide

/-- C4 amended: grading sets course.badge only when the percentage reaches
80 and an attempt below 80 leaves the existing badge untouched (so a badge
is never revoked); an attempt of 80 or more, however, replaces the badge
with one carrying the new score, even when that score is lower than the
stored badge's. -/
theorem badge_never_cleared_below_threshold (c : Course) (aid title date : String) (pct : Nat)
    (hid : c.id = aid) :
    (pct < 80 → (mockCourseUpdate aid title date pct c).badge = c.badge) ∧
    (80 ≤ pct → (mockCourseUpdate aid title date pct c).badge =
       some { courseTitle := title, score := pct, dateAwarded := date }) := by
  constructor
  · intro hlt
    have h80 : ¬ 80 ≤ pct := Nat.not_le.mpr hlt
    by_cases h70 : 70 ≤ pct
    · simp [mockCourseUpdate, mkNewBadge, hid, h70, h80]
    · simp [mockCourseUpdate, mkNewBadge, hid, h70, h80]
  · intro h80
    have h70 : 70 ≤ pct := le_trans (by norm_num) h80
    simp [mockCourseUpdate, mkNewBadge, hid, h70, h80]

theorem badge_never_cleared_below_threshold_witness :
    w4Course.id = "c4" ∧
    (((75 : Nat) < 80 → (mockCourseUpdate "c4" "T4" "d1" 75 w4Course).badge = w4Course.badge) ∧
     (80 ≤ 75 → (mockCourseUpdate "c4" "T4" "d1" 75 w4Course).badge =
        some { courseTitle := "T4", score := 75, dateAwarded := "d1" })) :=
  ⟨rfl, badge_never_cleared_below_threshold w4Course "c4" "T4" "d1" 75 rfl⟩

/-- C10: mock-test grading writes the computed percentage into
mockTestScore on every matching course unconditionally; a failing attempt
also overwrites any previously stored score. -/
theorem mock_score_overwritten_unconditionally (active : Course) (quiz : Quiz)
    (answers : Nat → List String) (date : String) (cs : List Course) (j : Nat) (c : Course)
    (hmt : active.mockTest = some quiz) (hj : cs[j]? = some c) (hid : c.id = active.id) :
    ((handleMockTestSubmit active answers date cs)[j]?).map (fun x => x.mockTestScore) =
      some (some (percentageOf quiz answers)) := by
  simp only [handleMockTestSubmit, hmt]
  rw [List.getElem?_map, hj]
  cases hnb : mkNewBadge (percentageOf quiz answers) active.title date with
  | some b => simp [mockCourseUpdate, hid, hnb]
  | none => simp [mockCourseUpdate, hid, hnb]

def w10Quiz : Quiz := { title := "MT10", questions := [w4Question] }

def w10Active : Course :=
  { id := "c10", title := "C10", description := "", modules := [], badge := none,
    unlockedModuleIndex := 0, isCompleted := true, mockTest := some w10Quiz,
    mockTestState := some GenerationState.READY, mockTestScore := some 90 }

def w10Answers : Nat → List String := fun _ => ["b"]

theorem mock_score_overwritten_unconditionally_witness :
    (w10Active.mockTest = some w10Quiz ∧ ([w10Active])[0]? = some w10Active ∧
     w10Active.id = w10Active.id) ∧
    ((handleMockTestSubmit w10Active w10Answers "d" [w10Active])[0]?).map
        (fun x => x.mockTestScore) =
      some (some (percentageOf w10Quiz w10Answers)) :=
  ⟨⟨rfl, rfl, rfl⟩,
   mock_score_overwritten_unconditionally w10Active w10Quiz w10Answers "d" [w10Active] 0
     w10Active rfl rfl rfl⟩

theorem handleGenerateModule_fst (aid : String) (midx : Nat) (res : GenResult)
    (cs : List Course) :
    (handleGenerateModule aid midx res cs).1 =
      cs.map (updateModuleState aid midx GenerationState.GENERATING none none) := by
  cases res <;> rfl

theorem handleGenerateModule_snd_success (aid : String) (midx : Nat) (content : String)
    (quiz : Quiz) (cs : List Course) :
    (handleGenerateModule aid midx (GenResult.success content quiz) cs).2 =
      (cs.map (updateModuleState aid midx GenerationState.GENERATING none none)).map
        (updateModuleState aid midx GenerationState.READY (some content) (some quiz)) := rfl

theorem handleGenerateModule_snd_failure (aid : String) (midx : Nat) (cs : List Course) :
    (handleGenerateModule aid midx GenResult.failure cs).2 =
      (cs.map (updateModuleState aid midx GenerationState.GENERATING none none)).map
        (updateModuleState aid midx GenerationState.FAILED none none) := rfl

def w5Quiz : Quiz := { title := "mq", questions := [w4Question] }

def w5Module : Module :=
  { title := "M0", objective := "O", content := some "lesson", quiz := some w5Quiz,
    isCompleted := true, generationState := GenerationState.READY, quizScore := some 100,
    quizAttempts := 0 }

def w5Course : Course :=
  { id := "c5", title := "C5", description := "", modules := [w5Module], badge := none,
    unlockedModuleIndex := 1, isCompleted := true, mockTest := none, mockTestState := none,
    mockTestScore := none }

/-- C5 counterexample: regenerating a module that already holds content
and a quiz: the GENERATING write and the FAILED write both set content and
quiz to undefined, so a failed regeneration loses the stored material. -/
theorem generating_and_failed_clear_content :
    w5Module.content = some "lesson" ∧ w5Module.quiz = some w5Quiz ∧
    ((handleGenerateModule "c5" 0 GenResult.failure [w5Course]).1.head?).map
        (fun c => c.modules) =
      some [{ w5Module with generationState := GenerationState.GENERATING
                            content := none, quiz := none }] ∧
    ((handleGenerateModule "c5" 0 GenResult.failure [w5Course]).2.head?).map
        (fun c => c.modules) =
      some [{ w5Module with generationState := GenerationState.FAILED
                            content := none, quiz := none }] := by
  decide

/-- C5 amended: the module is set to GENERATING before the gateway call
resolves; on success content, quiz and READY are set together; on failure
the state becomes FAILED; but both the GENERATING and the FAILED writes
store undefined into content and quiz, clearing any values the module
already held (for a module that never held content, nothing is lost). -/
theorem generate_module_transitions (aid : String) (midx : Nat) (res : GenResult)
    (cs : List Course) (j : Nat) (c : Course) (m : Module)
    (hj : cs[j]? = some c) (hid : c.id = aid) (hm : c.modules[midx]? = some m) :
    ((handleGenerateModule aid midx res cs).1[j]?).map (fun x => x.modules[midx]?) =
      some (some { m with generationState := GenerationState.GENERATING
                          content := none, quiz := none }) ∧
    (∀ content quiz, res = GenResult.success content quiz →
      ((handleGenerateModule aid midx res cs).2[j]?).map (fun x => x.modules[midx]?) =
        some (some { m with generationState := GenerationState.READY
                            content := some content, quiz := some quiz })) ∧
    (res = GenResult.failure →
      ((handleGenerateModule aid midx res cs).2[j]?).map (fun x => x.modules[midx]?) =
        some (some { m with generationState := GenerationState.FAILED
                            content := none, quiz := none })) := by
  have hg1 : (updateModuleState aid midx GenerationState.GENERATING none none c).modules[midx]? =
      some { m with generationState := GenerationState.GENERATING, content := none
                    quiz := none } :=
    updateModuleState_module aid midx _ none none c m hid hm
  have hg1id : (updateModuleState aid midx GenerationState.GENERATING none none c).id = aid := by
    rw [updateModuleState_id]
    exact hid
  refine ⟨?_, ?_, ?_⟩
  · rw [handleGenerateModule_fst, List.getElem?_map, hj]
    simp [hg1]
  · intro content quiz hres
    subst hres
    rw [handleGenerateModule_snd_success, List.getElem?_map, List.getElem?_map, hj]
    simp only [Option.map_some']
    rw [updateModuleState_module aid midx _ (some content) (some quiz) _ _ hg1id hg1]
  · intro hres
    subst hres
    rw [handleGenerateModule_snd_failure, List.getElem?_map, List.getElem?_map, hj]
    simp only [Option.map_some']
    rw [updateModuleState_module aid midx _ none none _ _ hg1id hg1]

theorem generate_module_transitions_witness :
    (([w5Course])[0]? = some w5Course ∧ w5Course.id = "c5" ∧
     w5Course.modules[0]? = some w5Module) ∧
    (((handleGenerateModule "c5" 0 GenResult.failure [w5Course]).1[0]?).map
        (fun x => x.modules[0]?) =
      some (some { w5Module with generationState := GenerationState.GENERATING
                                 content := none, quiz := none }) ∧
     (∀ content quiz, GenResult.failure = GenResult.success content quiz →
       ((handleGenerateModule "c5" 0 GenResult.failure [w5Course]).2[0]?).map
           (fun x => x.modules[0]?) =
         some (some { w5Module with generationState := GenerationState.READY
                                    content := some content, quiz := some quiz })) ∧
     (GenResult.failure = GenResult.failure →
       ((handleGenerateModule "c5" 0 GenResult.failure [w5Course]).2[0]?).map
           (fun x => x.modules[0]?) =
         some (some { w5Module with generationState := GenerationState.FAILED
                                    content := none, quiz := none }))) :=
  ⟨⟨rfl, rfl, rfl⟩,
   generate_module_transitions "c5" 0 GenResult.failure [w5Course] 0 w5Course w5Module
     rfl rfl rfl⟩

/-- C6: the learning-path branch of quiz grading maps the very same
courseUpdater over the path's courses, so the path's copy of the graded
course receives the same update, and the path's unlock frontier advances
by exactly one when and only when the active course is completed after the
update and sat exactly at the frontier. -/
theorem path_propagation_and_frontier (p : LearningPath) (aid : String) (midx pct i : Nat)
    (c' : Course)
    (hfind : (p.courses.map (courseUpdaterQuiz aid midx pct)).findIdx?
        (fun c => c.id == aid) = some i)
    (hget : (p.courses.map (courseUpdaterQuiz aid midx pct))[i]? = some c') :
    (pathUpdate p.id aid midx pct p).courses = p.courses.map (courseUpdaterQuiz aid midx pct) ∧
    (∀ (j : Nat) cj, p.courses[j]? = some cj →
       (pathUpdate p.id aid midx pct p).courses[j]? =
         some (courseUpdaterQuiz aid midx pct cj)) ∧
    (pathUpdate p.id aid midx pct p).unlockedCourseIndex =
      (if c'.isCompleted = true ∧ i = p.unlockedCourseIndex then p.unlockedCourseIndex + 1
       else p.unlockedCourseIndex) := by
  have hcourses : (pathUpdate p.id aid midx pct p).courses =
      p.courses.map (courseUpdaterQuiz aid midx pct) := by
    simp [pathUpdate]
  refine ⟨hcourses, ?_, ?_⟩
  · intro j cj hcj
    rw [hcourses, List.getElem?_map, hcj]
    rfl
  · simp [pathUpdate, hfind, hget]

def w6Course : Course :=
  { id := "c6", title := "C6", description := "", modules := [w2Module], badge := none,
    unlockedModuleIndex := 0, isCompleted := false, mockTest := none, mockTestState := none,
    mockTestScore := none }

def w6Path : LearningPath :=
  { id := "p6", title := "P", description := "", courses := [w6Course],
    unlockedCourseIndex := 0 }

theorem path_propagation_and_frontier_witness :
    ((w6Path.courses.map (courseUpdaterQuiz "c6" 0 100)).findIdx?
        (fun c => c.id == "c6") = some 0 ∧
     (w6Path.courses.map (courseUpdaterQuiz "c6" 0 100))[0]? =
       some (courseUpdaterQuiz "c6" 0 100 w6Course)) ∧
    ((pathUpdate w6Path.id "c6" 0 100 w6Path).courses =
       w6Path.courses.map (courseUpdaterQuiz "c6" 0 100) ∧
     (∀ (j : Nat) cj, w6Path.courses[j]? = some cj →
        (pathUpdate w6Path.id "c6" 0 100 w6Path).courses[j]? =
          some (courseUpdaterQuiz "c6" 0 100 cj)) ∧
     (pathUpdate w6Path.id "c6" 0 100 w6Path).unlockedCourseIndex =
       (if (courseUpdaterQuiz "c6" 0 100 w6Course).isCompleted = true ∧
           0 = w6Path.unlockedCourseIndex
        then w6Path.unlockedCourseIndex + 1 else w6Path.unlockedCourseIndex)) :=
  ⟨⟨by decide, by decide⟩,
   path_propagation_and_frontier w6Path "c6" 0 100 0 (courseUpdaterQuiz "c6" 0 100 w6Course)
     (by decide) (by decide)⟩

def w8Quiz : Quiz :=
  { title := "t8", questions :=
      [{ question := "q", type := QuizType.MSQ, options := some ["a", "b"],
         correctAnswers := ["b", "a"] }] }

/-- C8 counterexample: grading a quiz whose correctAnswers list is not
already sorted changes the quiz value: the in-place sort leaves
correctAnswers reordered from the stored order b, a to a, b. -/
theorem grading_mutates_quiz :
    (gradeQuiz w8Quiz (fun _ => [])).2 ≠ w8Quiz ∧
    ((gradeQuiz w8Quiz (fun _ => [])).2.questions.head?).map (fun q => q.correctAnswers) =
      some ["a", "b"] ∧
    (w8Quiz.questions.head?).map (fun q => q.correctAnswers) = some ["b", "a"] := by
  decide

/-- C8 amended: grading leaves the quiz's title and each question's text,
type and options unchanged, and replaces each question's correctAnswers by
its sorted rearrangement, a permutation of the original, so the quiz as an
unordered value is preserved and a quiz whose correctAnswers lists are
already sorted is left entirely unchanged. -/
theorem grading_sorts_correctAnswers_only (quiz : Quiz) (answers : Nat → List String) :
    (gradeQuiz quiz answers).2.title = quiz.title ∧
    List.Forall₂ (fun q q' : Question =>
        q'.question = q.question ∧ q'.type = q.type ∧ q'.options = q.options ∧
        q'.correctAnswers = sortStr q.correctAnswers ∧
        List.Perm q'.correctAnswers q.correctAnswers)
      quiz.questions (gradeQuiz quiz answers).2.questions := by
  constructor
  · rfl
  · have h2 : (gradeQuiz quiz answers).2.questions =
        quiz.questions.map (fun q => { q with correctAnswers := sortStr q.correctAnswers }) :=
      gradeAux_snd answers 0 quiz.questions
    rw [h2]
    induction quiz.questions with
    | nil => exact List.Forall₂.nil
    | cons q qs ih =>
      exact List.Forall₂.cons ⟨rfl, rfl, rfl, rfl, sortStr_perm q.correctAnswers⟩ ih

end QuantaLearn
